import Mathlib

/-!
Shallow embedding of the Streak & Challenge Progress Engine of the
Litty reading-tracker backend, together with proofs of its specified
properties.

The embedding follows `app/services/streak_service.py` and
`app/routes/challenges.py`:
* calendar days are modelled as integers (`Int`), one unit per day, so
  `today - timedelta(days=1)` becomes `today - 1`;
* a `datetime` value is a `Timestamp`: a day together with a sub-day
  tick, and the Python `.date()` truncation is the `day` projection;
* SQLAlchemy tables are Lean lists of records, a `query(...).first()`
  is `List.find?`, an in-place mutation of the first matching row is
  `updateFirst`, and `db.add` appends to the list;
* machine integers stored in the database (streak counters, seconds,
  pages, targets) are unbounded `Int`, as in Python.
-/

/-- A `datetime`: a calendar day plus a sub-day tick.  `day` is what
the Python `.date()` truncation observes. -/
structure Timestamp where
  day : Int
  tick : Nat
deriving DecidableEq, Repr

/-- The `ChallengeType` enum from `app/models/challenge.py`. -/
inductive ChallengeType where
  | STREAK
  | CONSISTENCY
  | PAGES
  | COMPLETION
  | TIME
deriving DecidableEq, Repr

/-- Core fields of the `User` row (`app/models/user.py`). -/
structure UserSt where
  id : Nat
  current_streak : Int
  longest_streak : Int
  last_reading_date : Option Timestamp
  streak_updated_at : Option Timestamp
deriving DecidableEq, Repr

/-- A `DailyReading` ledger row (`app/models/streak.py`). -/
structure DailyReading where
  user_id : Nat
  reading_date : Int
  reading_seconds : Int
  page_count : Int
deriving DecidableEq, Repr

/-- A catalog `Challenge` row (`app/models/challenge.py`). -/
structure Challenge where
  id : Nat
  type : ChallengeType
  target_value : Int
  is_active : Bool
deriving DecidableEq, Repr

/-- A `UserChallenge` enrollment row (`app/models/user_challenge.py`). -/
structure UserChallenge where
  user_id : Nat
  challenge_id : Nat
  progress : Int
  is_completed : Bool
  completed_date : Option Timestamp
deriving DecidableEq, Repr

/-- The database state: the four tables the engine touches. -/
structure DB where
  users : List UserSt
  daily_readings : List DailyReading
  challenges : List Challenge
  user_challenges : List UserChallenge
deriving DecidableEq, Repr

/-- Replace the first element satisfying `p` by its image under `f`
(SQLAlchemy-style in-place mutation of the row returned by
`query(...).first()`). -/
def updateFirst (p : α → Bool) (f : α → α) : List α → List α
  | [] => []
  | x :: xs => if p x then f x :: xs else x :: updateFirst p f xs

/-- Predicate of the `existing_reading` query in
`StreakService.update_streak`: the ledger row of this user for `today`. -/
def isTodayRow (user_id : Nat) (today : Int) (r : DailyReading) : Bool :=
  r.user_id == user_id && r.reading_date == today

/-- Embeds `_update_consistency_challenge`: recount the qualifying days in the
trailing window and complete when the count reaches the target. -/
def update_consistency_challenge (user : UserSt) (readings : List DailyReading)
    (challenge : Challenge) (uc : UserChallenge) (today : Int) (now : Timestamp) :
    UserChallenge :=
  let start_date := today - (challenge.target_value - 1)
  let consistent_days : Int :=
    ((readings.filter (fun r =>
        r.user_id == user.id &&
        decide (start_date ≤ r.reading_date) &&
        decide (r.reading_date ≤ today) &&
        decide (0 < r.page_count))).length : Int)
  let uc' := { uc with progress := consistent_days }
  if challenge.target_value ≤ consistent_days then
    { uc' with is_completed := true, completed_date := some now }
  else
    uc'

/-- The per-enrollment body of the loop in `_update_challenge_progress`:
dispatch on the type of the joined challenge.  A dangling `challenge_id`
(impossible under the non-nullable foreign key) leaves the row alone. -/
def eval_challenge (user : UserSt) (readings : List DailyReading)
    (challenges : List Challenge) (uc : UserChallenge) (today : Int) (now : Timestamp) :
    UserChallenge :=
  match challenges.find? (fun c => c.id == uc.challenge_id) with
  | none => uc
  | some challenge =>
    match challenge.type with
    | ChallengeType.STREAK =>
      let uc' := { uc with progress := user.current_streak }
      if challenge.target_value ≤ user.current_streak then
        { uc' with is_completed := true, completed_date := some now }
      else
        uc'
    | ChallengeType.CONSISTENCY =>
      update_consistency_challenge user readings challenge uc today now
    | _ => uc

/-- Embeds `_update_challenge_progress`: the query fetches the rows of this user with
`is_completed == False`; every fetched row is dispatched, all others are
untouched. -/
def update_challenge_progress (user : UserSt) (readings : List DailyReading)
    (challenges : List Challenge) (ucs : List UserChallenge) (today : Int)
    (now : Timestamp) : List UserChallenge :=
  ucs.map (fun uc =>
    if uc.user_id == user.id && uc.is_completed == false then
      eval_challenge user readings challenges uc today now
    else
      uc)

/-- The fixed milestone list of `_check_streak_challenges`. -/
def streak_milestones : List Int := [3, 7, 14, 30, 90, 365]

/-- One iteration of the milestone loop in `_check_streak_challenges`:
the list of rows `db.add`ed for this milestone (empty or a singleton). -/
def award_for_milestone (user : UserSt) (challenges : List Challenge)
    (ucs : List UserChallenge) (now : Timestamp) (milestone : Int) :
    List UserChallenge :=
  if user.current_streak == milestone then
    match challenges.find? (fun c =>
        decide (c.type = ChallengeType.STREAK) && c.target_value == milestone) with
    | some challenge =>
      match ucs.find? (fun uc =>
          uc.user_id == user.id && uc.challenge_id == challenge.id) with
      | some _ => []
      | none =>
        [{ user_id := user.id, challenge_id := challenge.id,
           progress := milestone, is_completed := true,
           completed_date := some now }]
    | none => []
  else
    []

/-- Embeds `_check_streak_challenges`: loop over the milestones, each `existing`
query seeing the rows added by earlier iterations (session autoflush). -/
def check_streak_challenges (user : UserSt) (challenges : List Challenge)
    (ucs : List UserChallenge) (now : Timestamp) : List UserChallenge :=
  streak_milestones.foldl
    (fun acc m => acc ++ award_for_milestone user challenges (ucs ++ acc) now m) []

/-- The `if`/`elif` case analysis at the top of `_update_user_streaks`,
adjusting `current_streak` from `last_reading_date.date()` against
`today` / `yesterday`; `none` encodes the early `return` of the
already-updated-today case. -/
def adjust_streak (user : UserSt) (today : Int) : Option UserSt :=
  let yesterday := today - 1
  match user.last_reading_date with
  | some last =>
    if last.day == yesterday then
      some { user with current_streak := user.current_streak + 1 }
    else if last.day == today then
      none
    else
      some { user with current_streak := 1 }
  | none => some { user with current_streak := 1 }

/-- The tail of `_update_user_streaks` after the case analysis:
longest-streak maximum, the two timestamp writes, and the milestone
check.  Returns the mutated user and the rows `db.add`ed by
`_check_streak_challenges`. -/
def finish_streak_update (u : UserSt) (challenges : List Challenge)
    (ucs : List UserChallenge) (now : Timestamp) :
    UserSt × List UserChallenge :=
  let u' := if u.longest_streak < u.current_streak then
      { u with longest_streak := u.current_streak }
    else
      u
  let u'' := { u' with last_reading_date := some now,
                       streak_updated_at := some now }
  (u'', check_streak_challenges u'' challenges ucs now)

/-- Embeds `_update_user_streaks` in full. -/
def update_user_streaks (user : UserSt) (challenges : List Challenge)
    (ucs : List UserChallenge) (today : Int) (now : Timestamp) :
    UserSt × List UserChallenge :=
  match adjust_streak user today with
  | none => (user, [])
  | some u => finish_streak_update u challenges ucs now

/-- Embeds `StreakService.update_streak`: the ledger upsert, gating streak
advancement and challenge re-evaluation on row creation. -/
def update_streak (db : DB) (user_id : Nat) (reading_seconds : Int)
    (page_count : Int) (today : Int) (now : Timestamp) : DB :=
  match db.users.find? (fun u => u.id == user_id) with
  | none => db
  | some user =>
    if (db.daily_readings.find? (isTodayRow user_id today)).isSome then
      { db with daily_readings :=
          (updateFirst (isTodayRow user_id today)
            (fun r => { r with reading_seconds := r.reading_seconds + reading_seconds,
                               page_count := r.page_count + page_count })
            db.daily_readings) }
    else
      let new_reading : DailyReading :=
        { user_id := user_id, reading_date := today,
          reading_seconds := reading_seconds, page_count := page_count }
      let readings := db.daily_readings ++ [new_reading]
      let su := update_user_streaks user db.challenges db.user_challenges today now
      let ucs2 := db.user_challenges ++ su.2
      let ucs3 := update_challenge_progress su.1 readings db.challenges ucs2 today now
      { db with
          users := updateFirst (fun u => u.id == user_id) (fun _ => su.1) db.users,
          daily_readings := readings,
          user_challenges := ucs3 }

/-- A reading event as fed to `update_streak`. -/
structure Event where
  user_id : Nat
  reading_seconds : Int
  page_count : Int
  today : Int
  now : Timestamp
deriving DecidableEq, Repr

/-- Process a sequence of reading events in order. -/
def processEvents (db : DB) (events : List Event) : DB :=
  events.foldl
    (fun d e => update_streak d e.user_id e.reading_seconds e.page_count e.today e.now)
    db

/-- Result of the `start_challenge` route: either an `HTTPException`
(status code and detail) or the created enrollment. -/
inductive StartResult where
  | error (status : Nat) (detail : String)
  | ok (uc : UserChallenge)
deriving DecidableEq, Repr

/-- Embeds `start_challenge` from `app/routes/challenges.py`: look up an
*active* challenge with this id (404 otherwise), reject a duplicate
enrollment (400), else create the enrollment row. -/
def start_challenge (db : DB) (challenge_id : Nat) (uid : Nat) :
    StartResult × DB :=
  match db.challenges.find? (fun c => c.id == challenge_id && c.is_active) with
  | none => (StartResult.error 404 "Challenge not found", db)
  | some _ =>
    match db.user_challenges.find? (fun uc =>
        uc.user_id == uid && uc.challenge_id == challenge_id) with
    | some _ => (StartResult.error 400 "Already enrolled in this challenge", db)
    | none =>
      let uc : UserChallenge :=
        { user_id := uid, challenge_id := challenge_id,
          progress := 0, is_completed := false, completed_date := none }
      (StartResult.ok uc, { db with user_challenges := db.user_challenges ++ [uc] })


/-- Spec-side restatement of the contiguity rule of claim C1, written
from the words of the spec: with `last_reading_date` on day D, an event on
day D+1 increments the streak by exactly 1, an event on day D leaves it
unchanged, any other day resets it to 1; with `last_reading_date`
unset, the first event sets it to 1. -/
def contiguityRuleSpec (current : Int) (lastDay : Option Int) (today : Int) : Int :=
  match lastDay with
  | none => 1
  | some d =>
    if today = d + 1 then current + 1
    else if today = d then current
    else 1

/-- Case C of `advanceStreak` in the spec: `last_reading_date.date()`
already falls on `today`. -/
def isCaseC (user : UserSt) (today : Int) : Bool :=
  match user.last_reading_date with
  | some last => last.day == today
  | none => false

/-- Spec-side count for claim C3, written from the words of the spec: the
number of the ledger rows of the user with `page_count > 0` whose date lies
in the inclusive window `[today - (target_value - 1), today]`. -/
def windowQualifyingCount (uid : Nat) (readings : List DailyReading)
    (target : Int) (today : Int) : Int :=
  ((readings.filter (fun r =>
      r.user_id == uid &&
      decide (today - (target - 1) ≤ r.reading_date) &&
      decide (r.reading_date ≤ today) &&
      decide (0 < r.page_count))).length : Int)

/-- Every day of the `target`-day window ending `today` has a ledger
row of this user with `page_count > 0`. -/
def coveredWindow (uid : Nat) (readings : List DailyReading)
    (target : Int) (today : Int) : Bool :=
  (List.range target.toNat).all (fun k =>
    readings.any (fun r =>
      r.user_id == uid && r.reading_date == today - k &&
      decide (0 < r.page_count)))

/-- Some day of the `target`-day window ending `today` has no ledger
row of this user with `page_count > 0` (e.g. the row for that day exists but
records zero pages). -/
def missesWindowDay (uid : Nat) (readings : List DailyReading)
    (target : Int) (today : Int) : Bool :=
  (List.range target.toNat).any (fun k =>
    readings.all (fun r =>
      !(r.user_id == uid && r.reading_date == today - k &&
        decide (0 < r.page_count))))

/-- At most one ledger row per `(user_id, reading_date)`: the
uniqueness constraint of the `DailyReading` table. -/
def LedgerUnique (readings : List DailyReading) : Prop :=
  List.Pairwise
    (fun r1 r2 => ¬(r1.user_id = r2.user_id ∧ r1.reading_date = r2.reading_date))
    readings

/-! ### Basic lemmas about the list primitives of the embedding -/

theorem length_updateFirst (p : α → Bool) (f : α → α) (l : List α) :
    (updateFirst p f l).length = l.length := by
  induction l with
  | nil => rfl
  | cons x xs ih =>
    simp only [updateFirst]
    split <;> simp [ih]

theorem updateFirst_append_of_all_neg (p : α → Bool) (f : α → α)
    (l m : List α) (h : ∀ y ∈ l, ¬ p y) :
    updateFirst p f (l ++ m) = l ++ updateFirst p f m := by
  induction l with
  | nil => rfl
  | cons y ys ih =>
    have hy : p y = false := by simpa using h y (by simp)
    simp only [List.cons_append, updateFirst, hy, Bool.false_eq_true, if_false,
      List.cons.injEq, true_and]
    exact ih (fun z hz => h z (by simp [hz]))

theorem find?_append_of_none (p : α → Bool) (l m : List α)
    (h : l.find? p = none) :
    (l ++ m).find? p = m.find? p := by
  induction l with
  | nil => rfl
  | cons y ys ih =>
    rw [List.find?_eq_none] at h
    have hy : p y = false := by simpa using h y (by simp)
    have hys : ys.find? p = none :=
      List.find?_eq_none.mpr (fun z hz => h z (by simp [hz]))
    simp only [List.cons_append, List.find?_cons, hy]
    exact ih hys

theorem find?_updateFirst (p : α → Bool) (f : α → α) (l : List α)
    (hf : ∀ x, p x = true → p (f x) = true) :
    (updateFirst p f l).find? p = (l.find? p).map f := by
  induction l with
  | nil => rfl
  | cons x xs ih =>
    by_cases hx : p x
    · simp [updateFirst, hx, hf x hx]
    · have hx' : p x = false := by simpa using hx
      simp [updateFirst, hx', List.find?_cons, ih]

theorem updateFirst_getElem? (p : α → Bool) (f : α → α) (l : List α) (i : Nat) :
    (updateFirst p f l)[i]? = l[i]? ∨
    ∃ x, l.find? p = some x ∧ l[i]? = some x ∧
      (updateFirst p f l)[i]? = some (f x) := by
  induction l generalizing i with
  | nil => left; rfl
  | cons x xs ih =>
    by_cases hx : p x
    · cases i with
      | zero =>
        right
        refine ⟨x, List.find?_cons_of_pos _ hx, by simp, ?_⟩
        simp [updateFirst, hx]
      | succ j =>
        left
        simp [updateFirst, hx]
    · have hx' : p x = false := by simpa using hx
      cases i with
      | zero =>
        left
        simp [updateFirst, hx']
      | succ j =>
        rcases ih j with h | ⟨y, hy1, hy2, hy3⟩
        · left
          simp only [updateFirst, hx', Bool.false_eq_true, if_false]
          simpa using h
        · right
          refine ⟨y, ?_, ?_, ?_⟩
          · simp [List.find?_cons, hx', hy1]
          · simpa using hy2
          · simp only [updateFirst, hx', Bool.false_eq_true, if_false]
            simpa using hy3

/-! ### Structural lemmas about the streak update -/

theorem adjust_streak_some (user : UserSt) (today : Int) (u' : UserSt)
    (h : adjust_streak user today = some u') :
    u'.id = user.id ∧ u'.longest_streak = user.longest_streak ∧
      (u'.current_streak = user.current_streak + 1 ∨ u'.current_streak = 1) := by
  unfold adjust_streak at h
  rcases hl : user.last_reading_date with _ | last
  · simp only [hl] at h
    cases h
    exact ⟨rfl, rfl, Or.inr rfl⟩
  · simp only [hl] at h
    split_ifs at h with h1 h2 <;> cases h <;> simp

theorem finish_streak_update_fst (u : UserSt) (challenges : List Challenge)
    (ucs : List UserChallenge) (now : Timestamp) :
    (finish_streak_update u challenges ucs now).1.id = u.id ∧
    (finish_streak_update u challenges ucs now).1.current_streak = u.current_streak ∧
    (finish_streak_update u challenges ucs now).1.longest_streak
      = max u.longest_streak u.current_streak ∧
    (finish_streak_update u challenges ucs now).1.last_reading_date = some now ∧
    (finish_streak_update u challenges ucs now).1.streak_updated_at = some now := by
  unfold finish_streak_update
  split <;> refine ⟨rfl, rfl, ?_, rfl, rfl⟩ <;> simp <;> omega

theorem update_user_streaks_id (user : UserSt) (challenges : List Challenge)
    (ucs : List UserChallenge) (today : Int) (now : Timestamp) :
    (update_user_streaks user challenges ucs today now).1.id = user.id := by
  unfold update_user_streaks
  cases ha : adjust_streak user today with
  | none => rfl
  | some u =>
    simpa [(finish_streak_update_fst u challenges ucs now).1] using
      (adjust_streak_some user today u ha).1

theorem update_user_streaks_longest_mono (user : UserSt)
    (challenges : List Challenge) (ucs : List UserChallenge) (today : Int)
    (now : Timestamp) :
    user.longest_streak ≤
      (update_user_streaks user challenges ucs today now).1.longest_streak := by
  unfold update_user_streaks
  cases ha : adjust_streak user today with
  | none => simp
  | some u =>
    have h1 := (finish_streak_update_fst u challenges ucs now).2.2.1
    have h2 := (adjust_streak_some user today u ha).2.1
    simp only [h1, h2]
    omega

theorem update_user_streaks_inv (user : UserSt) (challenges : List Challenge)
    (ucs : List UserChallenge) (today : Int) (now : Timestamp)
    (h : user.current_streak ≤ user.longest_streak) :
    (update_user_streaks user challenges ucs today now).1.current_streak ≤
      (update_user_streaks user challenges ucs today now).1.longest_streak := by
  unfold update_user_streaks
  cases ha : adjust_streak user today with
  | none => simpa using h
  | some u =>
    have h1 := (finish_streak_update_fst u challenges ucs now).2.1
    have h2 := (finish_streak_update_fst u challenges ucs now).2.2.1
    simp only [h1, h2]
    omega

theorem update_user_streaks_current_le (user : UserSt)
    (challenges : List Challenge) (ucs : List UserChallenge) (today : Int)
    (now : Timestamp) (h0 : 0 ≤ user.current_streak) :
    (update_user_streaks user challenges ucs today now).1.current_streak ≤
      user.current_streak + 1 := by
  unfold update_user_streaks
  cases ha : adjust_streak user today with
  | none => simp
  | some u =>
    have h1 := (finish_streak_update_fst u challenges ucs now).2.1
    have h2 := (adjust_streak_some user today u ha).2.2
    simp only [h1]
    omega

/-! ### C1: the contiguity rule -/

/-- C1: for every user, the streak-advancement operation adjusts
`current_streak` exactly as the contiguity rule prescribes: +1 when the
event falls on the day after `last_reading_date`, unchanged on the same
day, reset to 1 on any later gap or past date, and set to 1 on a
first-ever reading. -/
theorem C1_contiguity_rule (user : UserSt) (challenges : List Challenge)
    (ucs : List UserChallenge) (today : Int) (now : Timestamp) :
    (update_user_streaks user challenges ucs today now).1.current_streak
      = contiguityRuleSpec user.current_streak
          (user.last_reading_date.map Timestamp.day) today := by
  rcases hl : user.last_reading_date with _ | last
  · have ha : adjust_streak user today = some { user with current_streak := 1 } := by
      simp [adjust_streak, hl]
    simp [update_user_streaks, ha, contiguityRuleSpec, hl,
      (finish_streak_update_fst _ challenges ucs now).2.1]
  · by_cases h1 : last.day = today - 1
    · have ha : adjust_streak user today
          = some { user with current_streak := user.current_streak + 1 } := by
        simp [adjust_streak, hl, h1]
      have ht : today = last.day + 1 := by omega
      simp only [update_user_streaks, ha]
      simp [contiguityRuleSpec, hl, ht,
        (finish_streak_update_fst _ challenges ucs now).2.1]
    · by_cases h2 : last.day = today
      · have ha : adjust_streak user today = none := by
          simp [adjust_streak, hl, h2]
          omega
        have ht : ¬ today = last.day + 1 := by omega
        simp only [update_user_streaks, ha]
        simp [contiguityRuleSpec, hl, ht, h2]
      · have ha : adjust_streak user today
            = some { user with current_streak := 1 } := by
          simp [adjust_streak, hl, h1, h2]
        have ht1 : ¬ today = last.day + 1 := by omega
        have ht2 : ¬ today = last.day := fun hh => h2 hh.symm
        simp only [update_user_streaks, ha]
        simp [contiguityRuleSpec, hl, ht1, ht2,
          (finish_streak_update_fst _ challenges ucs now).2.1]

/-! ### C7: postconditions after the adjustment -/

theorem post_adjust_of_some (user : UserSt) (challenges : List Challenge)
    (ucs : List UserChallenge) (today : Int) (now : Timestamp) (u : UserSt)
    (ha : adjust_streak user today = some u) :
    (update_user_streaks user challenges ucs today now).1.longest_streak
      = max user.longest_streak
          (update_user_streaks user challenges ucs today now).1.current_streak ∧
    (update_user_streaks user challenges ucs today now).1.last_reading_date = some now ∧
    (update_user_streaks user challenges ucs today now).1.streak_updated_at = some now := by
  have hf := finish_streak_update_fst u challenges ucs now
  have hadj := adjust_streak_some user today u ha
  simp only [update_user_streaks, ha]
  exact ⟨by rw [hf.2.2.1, hf.2.1, hadj.2.1], hf.2.2.2.1, hf.2.2.2.2⟩

/-- C7, as amended: in Cases A, B and D the operation finishes by
setting `longest_streak` to `max(longest_streak, current_streak)` and
stamping `last_reading_date` and `streak_updated_at` with the current
timestamp; in Case C (`last_reading_date.date() == today`) the
operation returns early, leaving every user field — including
`last_reading_date`, which already holds a today-dated timestamp —
unchanged and awarding nothing. -/
theorem C7_post_adjustment (user : UserSt) (challenges : List Challenge)
    (ucs : List UserChallenge) (today : Int) (now : Timestamp) :
    if isCaseC user today then
      (update_user_streaks user challenges ucs today now).1 = user ∧
      (update_user_streaks user challenges ucs today now).2 = []
    else
      (update_user_streaks user challenges ucs today now).1.longest_streak
        = max user.longest_streak
            (update_user_streaks user challenges ucs today now).1.current_streak ∧
      (update_user_streaks user challenges ucs today now).1.last_reading_date
        = some now ∧
      (update_user_streaks user challenges ucs today now).1.streak_updated_at
        = some now := by
  rcases hl : user.last_reading_date with _ | last
  · have hc : isCaseC user today = false := by simp [isCaseC, hl]
    rw [hc]
    simp only [Bool.false_eq_true, if_false]
    exact post_adjust_of_some user challenges ucs today now
      { user with current_streak := 1 } (by simp [adjust_streak, hl])
  · by_cases h2 : last.day = today
    · have hc : isCaseC user today = true := by simp [isCaseC, hl, h2]
      have ha : adjust_streak user today = none := by
        simp [adjust_streak, hl, h2]
        omega
      rw [hc]
      simp only [if_true]
      constructor <;> simp [update_user_streaks, ha]
    · have hc : isCaseC user today = false := by simp [isCaseC, hl, h2]
      rw [hc]
      simp only [Bool.false_eq_true, if_false]
      by_cases h1 : last.day = today - 1
      · exact post_adjust_of_some user challenges ucs today now
          { user with current_streak := user.current_streak + 1 }
          (by simp [adjust_streak, hl, h1])
      · exact post_adjust_of_some user challenges ucs today now
          { user with current_streak := 1 }
          (by simp [adjust_streak, hl, h1, h2])

/-- C7 counterexample: with `last_reading_date` an earlier timestamp of
today (day 5, tick 0) and the event argument `now` a later timestamp of the
same day (day 5, tick 1), the operation does *not* set
`last_reading_date` to the current timestamp — the Case-C early return
leaves the old timestamp in place, contradicting the claim that
`last_reading_date` is set to `now()` on every invocation, including
Case C. -/
theorem C7_counterexample :
    (update_user_streaks
      { id := 1, current_streak := 2, longest_streak := 2,
        last_reading_date := some { day := 5, tick := 0 },
        streak_updated_at := none }
      [] [] 5 { day := 5, tick := 1 }).1.last_reading_date
      ≠ some { day := 5, tick := 1 } := by decide

/-! ### C10: no validation of reading deltas -/

/-- C10: `update_streak` imposes no lower bound on the deltas.  With an
existing ledger row for `(user, today)`, arbitrary integer deltas —
negative ones included — are added to the stored `reading_seconds` and
`page_count` verbatim, nothing else changes, and no error is raised
(the operation is total and returns the updated state). -/
theorem C10_no_input_validation (db : DB) (user_id : Nat)
    (reading_seconds page_count : Int) (today : Int) (now : Timestamp)
    (user : UserSt) (pre : List DailyReading) (r : DailyReading)
    (post : List DailyReading)
    (h_user : db.users.find? (fun u => u.id == user_id) = some user)
    (h_split : db.daily_readings = pre ++ r :: post)
    (h_pre : ∀ y ∈ pre, ¬ isTodayRow user_id today y)
    (h_r : isTodayRow user_id today r = true) :
    update_streak db user_id reading_seconds page_count today now
      = { db with daily_readings :=
            pre ++ { r with reading_seconds := r.reading_seconds + reading_seconds,
                            page_count := r.page_count + page_count } :: post } := by
  have hfind : db.daily_readings.find? (isTodayRow user_id today) = some r := by
    rw [h_split, find?_append_of_none _ _ _ (List.find?_eq_none.mpr h_pre),
      List.find?_cons_of_pos _ h_r]
  simp only [update_streak, h_user, hfind, Option.isSome_some, if_true]
  rw [h_split, updateFirst_append_of_all_neg _ _ _ _ h_pre]
  simp [updateFirst, h_r]

/-- Witness for C10 at a concrete input: deltas −25 seconds and −7
pages applied to a row holding 10 seconds and 2 pages drive both
counters below zero, with no error. -/
theorem C10_no_input_validation_witness :
    (update_streak
      { users := [{ id := 1, current_streak := 0, longest_streak := 0,
                    last_reading_date := none, streak_updated_at := none }],
        daily_readings := [{ user_id := 1, reading_date := 5,
                             reading_seconds := 10, page_count := 2 }],
        challenges := [], user_challenges := [] }
      1 (-25) (-7) 5 { day := 5, tick := 0 }).daily_readings
      = [{ user_id := 1, reading_date := 5,
           reading_seconds := -15, page_count := -5 }] ∧
    (-15 : Int) < 0 ∧ (-5 : Int) < 0 := by
  refine ⟨?_, by decide, by decide⟩
  rw [C10_no_input_validation
    { users := [{ id := 1, current_streak := 0, longest_streak := 0,
                  last_reading_date := none, streak_updated_at := none }],
      daily_readings := [{ user_id := 1, reading_date := 5,
                           reading_seconds := 10, page_count := 2 }],
      challenges := [], user_challenges := [] }
    1 (-25) (-7) 5 { day := 5, tick := 0 }
    { id := 1, current_streak := 0, longest_streak := 0,
      last_reading_date := none, streak_updated_at := none }
    [] { user_id := 1, reading_date := 5, reading_seconds := 10, page_count := 2 } []
    rfl rfl (by simp) rfl]
  simp

/-! ### C4: streak-milestone awarding -/

theorem check_streak_challenges_eq_award (user : UserSt)
    (challenges : List Challenge) (ucs : List UserChallenge) (now : Timestamp)
    (m : Int) (hs : user.current_streak = m) (hm : m ∈ streak_milestones) :
    check_streak_challenges user challenges ucs now
      = award_for_milestone user challenges ucs now m := by
  have hm' : m = 3 ∨ m = 7 ∨ m = 14 ∨ m = 30 ∨ m = 90 ∨ m = 365 := by
    simpa [streak_milestones] using hm
  unfold check_streak_challenges streak_milestones
  rcases hm' with h|h|h|h|h|h <;> subst h <;>
    simp [List.foldl, award_for_milestone, hs]

/-- C4: after a streak advancement, when `current_streak` equals a
milestone in {3, 7, 14, 30, 90, 365}: (i) if a STREAK catalog challenge
with that target exists and the user has no enrollment for it, a single
already-completed `UserChallenge` (progress = milestone,
`is_completed = true`, `completed_date` stamped) is added; (ii) if an
enrollment already exists, nothing is added; (iii) if no catalog row
matches, awarding is silently skipped; (iv) after an award, any later
invocation — even for a user state that dropped and climbed back to the
same milestone — adds nothing for that challenge. -/
theorem C4_streak_milestone_awarding (user user2 : UserSt)
    (challenges : List Challenge) (ucs : List UserChallenge)
    (now now2 : Timestamp) (m : Int) (c : Challenge)
    (hs : user.current_streak = m) (hm : m ∈ streak_milestones)
    (h2id : user2.id = user.id) (h2s : user2.current_streak = m) :
    (challenges.find? (fun ch =>
        decide (ch.type = ChallengeType.STREAK) && ch.target_value == m) = some c →
      ucs.find? (fun uc =>
        uc.user_id == user.id && uc.challenge_id == c.id) = none →
      check_streak_challenges user challenges ucs now
        = [{ user_id := user.id, challenge_id := c.id, progress := m,
             is_completed := true, completed_date := some now }]) ∧
    (challenges.find? (fun ch =>
        decide (ch.type = ChallengeType.STREAK) && ch.target_value == m) = some c →
      (ucs.find? (fun uc =>
        uc.user_id == user.id && uc.challenge_id == c.id)).isSome = true →
      check_streak_challenges user challenges ucs now = []) ∧
    (challenges.find? (fun ch =>
        decide (ch.type = ChallengeType.STREAK) && ch.target_value == m) = none →
      check_streak_challenges user challenges ucs now = []) ∧
    (challenges.find? (fun ch =>
        decide (ch.type = ChallengeType.STREAK) && ch.target_value == m) = some c →
      ucs.find? (fun uc =>
        uc.user_id == user.id && uc.challenge_id == c.id) = none →
      check_streak_challenges user2 challenges
        (ucs ++ check_streak_challenges user challenges ucs now) now2 = []) := by
  have hca := check_streak_challenges_eq_award user challenges ucs now m hs hm
  refine ⟨?_, ?_, ?_, ?_⟩
  · intro hfind hnone
    rw [hca]
    simp [award_for_milestone, hs, hfind, hnone]
  · intro hfind hsome
    rcases Option.isSome_iff_exists.mp hsome with ⟨e, he⟩
    rw [hca]
    simp [award_for_milestone, hs, hfind, he]
  · intro hfind
    rw [hca]
    simp [award_for_milestone, hs, hfind]
  · intro hfind hnone
    have hi : check_streak_challenges user challenges ucs now
        = [{ user_id := user.id, challenge_id := c.id, progress := m,
             is_completed := true, completed_date := some now }] := by
      rw [hca]
      simp [award_for_milestone, hs, hfind, hnone]
    rw [check_streak_challenges_eq_award user2 challenges _ now2 m h2s hm, hi]
    simp only [award_for_milestone, h2s, beq_self_eq_true, if_true, hfind, h2id]
    rw [find?_append_of_none _ _ _ hnone]
    simp

/-- Witness for C4 at a concrete input: streak 7 with a catalog 7-day
STREAK challenge and no prior enrollment yields exactly one
already-completed award. -/
theorem C4_streak_milestone_awarding_witness :
    check_streak_challenges
      { id := 1, current_streak := 7, longest_streak := 7,
        last_reading_date := some { day := 3, tick := 0 },
        streak_updated_at := none }
      [{ id := 42, type := ChallengeType.STREAK, target_value := 7,
         is_active := true }]
      [] { day := 3, tick := 0 }
      = [{ user_id := 1, challenge_id := 42, progress := 7,
           is_completed := true, completed_date := some { day := 3, tick := 0 } }] :=
  (C4_streak_milestone_awarding
    { id := 1, current_streak := 7, longest_streak := 7,
      last_reading_date := some { day := 3, tick := 0 },
      streak_updated_at := none }
    { id := 1, current_streak := 7, longest_streak := 7,
      last_reading_date := some { day := 3, tick := 0 },
      streak_updated_at := none }
    [{ id := 42, type := ChallengeType.STREAK, target_value := 7,
       is_active := true }]
    [] { day := 3, tick := 0 } { day := 3, tick := 0 } 7
    { id := 42, type := ChallengeType.STREAK, target_value := 7,
      is_active := true }
    rfl (by decide) rfl rfl).1 (by decide) rfl

/-! ### C9: duplicate enrollment handling -/

/-- C9 counterexample: a user already enrolled in challenge 1, but
challenge 1 is inactive.  A second `start` is rejected as "Challenge
not found" (HTTP 404), not as the already-enrolled conflict failure the
claim promises for *every* already-enrolled challenge.  (State is still
left untouched.) -/
theorem C9_counterexample :
    (start_challenge
      { users := [], daily_readings := [],
        challenges := [{ id := 1, type := ChallengeType.STREAK,
                         target_value := 7, is_active := false }],
        user_challenges := [{ user_id := 9, challenge_id := 1, progress := 3,
                              is_completed := false, completed_date := none }] }
      1 9).1 = StartResult.error 404 "Challenge not found" ∧
    (start_challenge
      { users := [], daily_readings := [],
        challenges := [{ id := 1, type := ChallengeType.STREAK,
                         target_value := 7, is_active := false }],
        user_challenges := [{ user_id := 9, challenge_id := 1, progress := 3,
                              is_completed := false, completed_date := none }] }
      1 9).1 ≠ StartResult.error 400 "Already enrolled in this challenge" := by
  constructor <;> decide

/-- C9, as amended: for a user already holding an enrollment (completed
or not) in a challenge that exists *and is active*, a second `start`
returns the client-visible conflict failure (HTTP 400, "Already
enrolled in this challenge") and leaves the database — in particular
the existing enrollment — completely unchanged; when the lookup of an
active challenge with that id fails (missing or inactive), the second
`start` instead fails as not found (HTTP 404), likewise changing
nothing. -/
theorem C9_duplicate_enrollment (db : DB) (challenge_id uid : Nat)
    (hdup : (db.user_challenges.find? (fun uc =>
      uc.user_id == uid && uc.challenge_id == challenge_id)).isSome = true) :
    ((db.challenges.find? (fun c => c.id == challenge_id && c.is_active)).isSome = true →
      start_challenge db challenge_id uid
        = (StartResult.error 400 "Already enrolled in this challenge", db)) ∧
    (db.challenges.find? (fun c => c.id == challenge_id && c.is_active) = none →
      start_challenge db challenge_id uid
        = (StartResult.error 404 "Challenge not found", db)) := by
  constructor
  · intro hact
    rcases Option.isSome_iff_exists.mp hact with ⟨c, hc⟩
    rcases Option.isSome_iff_exists.mp hdup with ⟨e, he⟩
    simp [start_challenge, hc, he]
  · intro hnone
    simp [start_challenge, hnone]

/-- Witness for C9 at a concrete input: an active challenge, an
existing enrollment, and a second `start` returning the conflict
failure with the state unchanged. -/
theorem C9_duplicate_enrollment_witness :
    start_challenge
      { users := [], daily_readings := [],
        challenges := [{ id := 1, type := ChallengeType.STREAK,
                         target_value := 7, is_active := true }],
        user_challenges := [{ user_id := 9, challenge_id := 1, progress := 3,
                              is_completed := false, completed_date := none }] }
      1 9
      = (StartResult.error 400 "Already enrolled in this challenge",
         { users := [], daily_readings := [],
           challenges := [{ id := 1, type := ChallengeType.STREAK,
                            target_value := 7, is_active := true }],
           user_challenges := [{ user_id := 9, challenge_id := 1, progress := 3,
                                 is_completed := false, completed_date := none }] }) :=
  (C9_duplicate_enrollment
    { users := [], daily_readings := [],
      challenges := [{ id := 1, type := ChallengeType.STREAK,
                       target_value := 7, is_active := true }],
      user_challenges := [{ user_id := 9, challenge_id := 1, progress := 3,
                            is_completed := false, completed_date := none }] }
    1 9 (by decide)).1 (by decide)

/-! ### C8: inactive-challenge semantics -/

/-- C8: when every catalog row with the requested id is inactive, the
`start` route fails with 404 and creates nothing; yet per-event
challenge-progress dispatch selects enrollments by
`is_completed == false` alone, so an existing incomplete enrollment in
an inactive challenge is still evaluated and can still be completed. -/
theorem C8_inactive_challenge (db : DB) (challenge_id uid : Nat)
    (user : UserSt) (readings : List DailyReading)
    (challenges : List Challenge) (ucs : List UserChallenge) (today : Int)
    (now : Timestamp) (i : Nat) (uc : UserChallenge) (c : Challenge)
    (h_inactive : db.challenges.all
      (fun ch => !(ch.id == challenge_id && ch.is_active)) = true)
    (h_uc : ucs[i]? = some uc)
    (h_mine : uc.user_id = user.id)
    (h_inc : uc.is_completed = false)
    (h_c : challenges.find? (fun x => x.id == uc.challenge_id) = some c)
    (h_cin : c.is_active = false)
    (h_ty : c.type = ChallengeType.STREAK)
    (h_tar : c.target_value ≤ user.current_streak) :
    start_challenge db challenge_id uid
      = (StartResult.error 404 "Challenge not found", db) ∧
    (update_challenge_progress user readings challenges ucs today now)[i]?
      = some { uc with
          progress := user.current_streak
          is_completed := true
          completed_date := some now } := by
  constructor
  · have hnone : db.challenges.find?
        (fun ch => ch.id == challenge_id && ch.is_active) = none := by
      rw [List.find?_eq_none]
      intro x hx
      have hx' := (List.all_eq_true.mp h_inactive) x hx
      simp only [Bool.not_eq_true'] at hx'
      simp [hx']
    simp [start_challenge, hnone]
  · simp [update_challenge_progress, h_uc, h_mine, h_inc,
      eval_challenge, h_c, h_ty, h_tar]

/-- Witness for C8 at a concrete input: a lone inactive challenge is
not startable (404), while its pre-existing incomplete enrollment is
completed by dispatch once the streak reaches the target. -/
theorem C8_inactive_challenge_witness :
    start_challenge
      { users := [], daily_readings := [],
        challenges := [{ id := 5, type := ChallengeType.STREAK,
                         target_value := 7, is_active := false }],
        user_challenges := [] } 5 1
      = (StartResult.error 404 "Challenge not found",
         { users := [], daily_readings := [],
           challenges := [{ id := 5, type := ChallengeType.STREAK,
                            target_value := 7, is_active := false }],
           user_challenges := [] }) ∧
    (update_challenge_progress
      { id := 1, current_streak := 7, longest_streak := 7,
        last_reading_date := none, streak_updated_at := none }
      []
      [{ id := 5, type := ChallengeType.STREAK, target_value := 7,
         is_active := false }]
      [{ user_id := 1, challenge_id := 5, progress := 0,
         is_completed := false, completed_date := none }]
      3 { day := 3, tick := 0 })[0]?
      = some { user_id := 1, challenge_id := 5, progress := 7,
               is_completed := true,
               completed_date := some { day := 3, tick := 0 } } :=
  C8_inactive_challenge
    { users := [], daily_readings := [],
      challenges := [{ id := 5, type := ChallengeType.STREAK,
                       target_value := 7, is_active := false }],
      user_challenges := [] }
    5 1
    { id := 1, current_streak := 7, longest_streak := 7,
      last_reading_date := none, streak_updated_at := none }
    []
    [{ id := 5, type := ChallengeType.STREAK, target_value := 7,
       is_active := false }]
    [{ user_id := 1, challenge_id := 5, progress := 0,
       is_completed := false, completed_date := none }]
    3 { day := 3, tick := 0 } 0
    { user_id := 1, challenge_id := 5, progress := 0,
      is_completed := false, completed_date := none }
    { id := 5, type := ChallengeType.STREAK, target_value := 7,
      is_active := false }
    (by decide) (by decide) rfl rfl (by decide) rfl rfl (by decide)

/-! ### C6: completion stickiness -/

theorem update_streak_completed_getElem (db : DB) (uid : Nat)
    (s pg : Int) (today : Int) (now : Timestamp) (i : Nat)
    (uc : UserChallenge) (h1 : db.user_challenges[i]? = some uc)
    (h2 : uc.is_completed = true) :
    (update_streak db uid s pg today now).user_challenges[i]? = some uc := by
  unfold update_streak
  cases hu : db.users.find? (fun u => u.id == uid) with
  | none => exact h1
  | some user =>
    by_cases hr : (db.daily_readings.find? (isTodayRow uid today)).isSome
    · simp [hr, h1]
    · have hi : i < db.user_challenges.length := by
        rcases List.getElem?_eq_some.mp h1 with ⟨h, _⟩
        exact h
      simp only [hr, Bool.false_eq_true, if_false]
      simp only [update_challenge_progress, List.getElem?_map]
      rw [List.getElem?_append_left hi, h1]
      simp [h2]

/-- C6: once an enrollment is completed, no sequence of subsequent
reading events changes it in any way — challenge-progress dispatch only
mutates enrollments with `is_completed == false`, so the completed row
at its position is untouched by every later event. -/
theorem C6_completion_stickiness (events : List Event) (db : DB) (i : Nat)
    (uc : UserChallenge) (h1 : db.user_challenges[i]? = some uc)
    (h2 : uc.is_completed = true) :
    (processEvents db events).user_challenges[i]? = some uc := by
  induction events generalizing db with
  | nil => exact h1
  | cons e es ih =>
    exact ih _
      (update_streak_completed_getElem db e.user_id e.reading_seconds
        e.page_count e.today e.now i uc h1 h2)

/-- Witness for C6 at a concrete input: a completed enrollment survives
a later reading event unchanged. -/
theorem C6_completion_stickiness_witness :
    (processEvents
      { users := [{ id := 1, current_streak := 2, longest_streak := 2,
                    last_reading_date := some { day := 4, tick := 0 },
                    streak_updated_at := none }],
        daily_readings := [],
        challenges := [{ id := 9, type := ChallengeType.STREAK,
                         target_value := 3, is_active := true }],
        user_challenges := [{ user_id := 1, challenge_id := 9, progress := 3,
                              is_completed := true,
                              completed_date := some { day := 2, tick := 0 } }] }
      [{ user_id := 1, reading_seconds := 60, page_count := 5,
         today := 5, now := { day := 5, tick := 0 } }]).user_challenges[0]?
      = some { user_id := 1, challenge_id := 9, progress := 3,
               is_completed := true,
               completed_date := some { day := 2, tick := 0 } } :=
  C6_completion_stickiness
    [{ user_id := 1, reading_seconds := 60, page_count := 5,
       today := 5, now := { day := 5, tick := 0 } }]
    { users := [{ id := 1, current_streak := 2, longest_streak := 2,
                  last_reading_date := some { day := 4, tick := 0 },
                  streak_updated_at := none }],
      daily_readings := [],
      challenges := [{ id := 9, type := ChallengeType.STREAK,
                       target_value := 3, is_active := true }],
      user_challenges := [{ user_id := 1, challenge_id := 9, progress := 3,
                            is_completed := true,
                            completed_date := some { day := 2, tick := 0 } }] }
    0
    { user_id := 1, challenge_id := 9, progress := 3,
      is_completed := true, completed_date := some { day := 2, tick := 0 } }
    rfl rfl

/-! ### C2: no double-advance on a same-day second event -/

theorem update_streak_created (db : DB) (uid : Nat) (s p : Int)
    (today : Int) (now : Timestamp) (user : UserSt)
    (h_user : db.users.find? (fun u => u.id == uid) = some user)
    (h_norow : db.daily_readings.find? (isTodayRow uid today) = none) :
    update_streak db uid s p today now = { db with
      users := updateFirst (fun u => u.id == uid)
        (fun _ => (update_user_streaks user db.challenges db.user_challenges today now).1)
        db.users
      daily_readings := db.daily_readings ++
        [{ user_id := uid, reading_date := today,
           reading_seconds := s, page_count := p }]
      user_challenges := update_challenge_progress
        (update_user_streaks user db.challenges db.user_challenges today now).1
        (db.daily_readings ++
          [{ user_id := uid, reading_date := today,
             reading_seconds := s, page_count := p }])
        db.challenges
        (db.user_challenges ++
          (update_user_streaks user db.challenges db.user_challenges today now).2)
        today now } := by
  simp only [update_streak, h_user, h_norow, Option.isSome_none,
    Bool.false_eq_true, if_false]

theorem update_streak_existing (db : DB) (uid : Nat) (s p : Int)
    (today : Int) (now : Timestamp) (user : UserSt)
    (h_user : db.users.find? (fun u => u.id == uid) = some user)
    (h_some : (db.daily_readings.find? (isTodayRow uid today)).isSome = true) :
    update_streak db uid s p today now = { db with
      daily_readings := (updateFirst (isTodayRow uid today)
        (fun r => { r with
          reading_seconds := r.reading_seconds + s
          page_count := r.page_count + p })
        db.daily_readings) } := by
  simp only [update_streak, h_user, h_some, if_true]

/-- C2: starting with no ledger row for `(user, today)`, two reading
events on the same day produce a single ledger row accumulating both
contributions (`s1 + s2` seconds, `p1 + p2` pages); the second event —
which finds the row already created — changes neither the user table
nor the enrollments (streak advancement and challenge re-evaluation run
only on row creation), and the streak after the first event exceeds the
initial streak by at most 1. -/
theorem C2_no_double_advance (db : DB) (uid : Nat) (s1 p1 s2 p2 : Int)
    (today : Int) (now1 now2 : Timestamp) (user : UserSt)
    (h_user : db.users.find? (fun u => u.id == uid) = some user)
    (h_norow : db.daily_readings.find? (isTodayRow uid today) = none)
    (h_nonneg : 0 ≤ user.current_streak) :
    (update_streak (update_streak db uid s1 p1 today now1) uid s2 p2 today now2).users
      = (update_streak db uid s1 p1 today now1).users ∧
    (update_streak (update_streak db uid s1 p1 today now1) uid s2 p2 today now2).user_challenges
      = (update_streak db uid s1 p1 today now1).user_challenges ∧
    (update_streak (update_streak db uid s1 p1 today now1) uid s2 p2 today now2).daily_readings
      = db.daily_readings ++
        [{ user_id := uid, reading_date := today,
           reading_seconds := s1 + s2, page_count := p1 + p2 }] ∧
    (update_streak db uid s1 p1 today now1).users.find? (fun u => u.id == uid)
      = some (update_user_streaks user db.challenges db.user_challenges today now1).1 ∧
    (update_user_streaks user db.challenges db.user_challenges today now1).1.current_streak
      ≤ user.current_streak + 1 := by
  have huid0 := List.find?_some h_user
  have huid : (user.id == uid) = true := huid0
  have hprenone : ∀ y ∈ db.daily_readings, ¬ isTodayRow uid today y = true :=
    List.find?_eq_none.mp h_norow
  have h1 := update_streak_created db uid s1 p1 today now1 user h_user h_norow
  have hfind2u : (update_streak db uid s1 p1 today now1).users.find?
      (fun u => u.id == uid)
      = some (update_user_streaks user db.challenges db.user_challenges today now1).1 := by
    rw [h1]
    have hpres : ∀ x : UserSt, (x.id == uid) = true →
        (((fun _ : UserSt =>
          (update_user_streaks user db.challenges db.user_challenges today now1).1) x).id
            == uid) = true := by
      intro x _
      rw [update_user_streaks_id]
      exact huid
    rw [show ({ db with
        users := updateFirst (fun u => u.id == uid)
          (fun _ => (update_user_streaks user db.challenges db.user_challenges today now1).1)
          db.users
        daily_readings := db.daily_readings ++
          [{ user_id := uid, reading_date := today,
             reading_seconds := s1, page_count := p1 }]
        user_challenges := update_challenge_progress
          (update_user_streaks user db.challenges db.user_challenges today now1).1
          (db.daily_readings ++
            [{ user_id := uid, reading_date := today,
               reading_seconds := s1, page_count := p1 }])
          db.challenges
          (db.user_challenges ++
            (update_user_streaks user db.challenges db.user_challenges today now1).2)
          today now1 } : DB).users
      = updateFirst (fun u => u.id == uid)
          (fun _ => (update_user_streaks user db.challenges db.user_challenges today now1).1)
          db.users from rfl]
    rw [find?_updateFirst _ _ _ hpres, h_user]
    rfl
  have hfind2r : ((update_streak db uid s1 p1 today now1).daily_readings.find?
      (isTodayRow uid today)).isSome = true := by
    rw [h1]
    show ((db.daily_readings ++
      [({ user_id := uid, reading_date := today,
          reading_seconds := s1, page_count := p1 } : DailyReading)]).find?
        (isTodayRow uid today)).isSome = true
    rw [find?_append_of_none _ _ _ h_norow]
    simp [isTodayRow]
  have h2 := update_streak_existing (update_streak db uid s1 p1 today now1)
    uid s2 p2 today now2
    (update_user_streaks user db.challenges db.user_challenges today now1).1
    hfind2u hfind2r
  refine ⟨by rw [h2], by rw [h2], ?_, hfind2u,
    update_user_streaks_current_le user db.challenges db.user_challenges
      today now1 h_nonneg⟩
  rw [h2]
  show updateFirst (isTodayRow uid today)
      (fun r => { r with
        reading_seconds := r.reading_seconds + s2
        page_count := r.page_count + p2 })
      (update_streak db uid s1 p1 today now1).daily_readings
    = db.daily_readings ++
      [{ user_id := uid, reading_date := today,
         reading_seconds := s1 + s2, page_count := p1 + p2 }]
  rw [h1]
  show updateFirst (isTodayRow uid today)
      (fun r => { r with
        reading_seconds := r.reading_seconds + s2
        page_count := r.page_count + p2 })
      (db.daily_readings ++
        [({ user_id := uid, reading_date := today,
            reading_seconds := s1, page_count := p1 } : DailyReading)])
    = db.daily_readings ++
      [{ user_id := uid, reading_date := today,
         reading_seconds := s1 + s2, page_count := p1 + p2 }]
  rw [updateFirst_append_of_all_neg _ _ _ _ hprenone]
  simp [updateFirst, isTodayRow]

/-- Witness for C2 at a concrete input: two events of 60 s/5 pages and
30 s/2 pages on day 1 leave a single ledger row holding 90 s and 7
pages. -/
theorem C2_no_double_advance_witness :
    (update_streak
      (update_streak
        { users := [{ id := 1, current_streak := 0, longest_streak := 0,
                      last_reading_date := none, streak_updated_at := none }],
          daily_readings := [], challenges := [], user_challenges := [] }
        1 60 5 1 { day := 1, tick := 0 })
      1 30 2 1 { day := 1, tick := 1 }).daily_readings
      = [{ user_id := 1, reading_date := 1,
           reading_seconds := 90, page_count := 7 }] := by
  have h := (C2_no_double_advance
    { users := [{ id := 1, current_streak := 0, longest_streak := 0,
                  last_reading_date := none, streak_updated_at := none }],
      daily_readings := [], challenges := [], user_challenges := [] }
    1 60 5 30 2 1 { day := 1, tick := 0 } { day := 1, tick := 1 }
    { id := 1, current_streak := 0, longest_streak := 0,
      last_reading_date := none, streak_updated_at := none }
    rfl rfl (by decide)).2.2.1
  simpa using h

/-! ### C5: longest-streak invariant and monotonicity -/

theorem update_streak_users_length (db : DB) (uid : Nat) (s p : Int)
    (today : Int) (now : Timestamp) :
    (update_streak db uid s p today now).users.length = db.users.length := by
  unfold update_streak
  cases hu : db.users.find? (fun u => u.id == uid) with
  | none => rfl
  | some user =>
    by_cases hr : (db.daily_readings.find? (isTodayRow uid today)).isSome
    · simp [hr]
    · simp [hr, length_updateFirst]

theorem update_streak_users_getElem (db : DB) (uid : Nat) (s p : Int)
    (today : Int) (now : Timestamp) (i : Nat) :
    (update_streak db uid s p today now).users[i]? = db.users[i]? ∨
    ∃ u, db.users[i]? = some u ∧
      (update_streak db uid s p today now).users[i]?
        = some (update_user_streaks u db.challenges db.user_challenges today now).1 := by
  unfold update_streak
  cases hu : db.users.find? (fun u => u.id == uid) with
  | none => left; rfl
  | some user =>
    by_cases hr : (db.daily_readings.find? (isTodayRow uid today)).isSome
    · left; simp [hr]
    · simp only [hr, Bool.false_eq_true, if_false]
      rcases updateFirst_getElem? (fun u => u.id == uid)
        (fun _ => (update_user_streaks user db.challenges db.user_challenges today now).1)
        db.users i with h | ⟨x, hx1, hx2, hx3⟩
      · left; exact h
      · right
        have hxu : x = user := Option.some.inj (hx1.symm.trans hu)
        exact ⟨x, hx2, by rw [hxu]; exact hx3⟩

theorem update_streak_users_step (db : DB) (uid : Nat) (s p : Int)
    (today : Int) (now : Timestamp) (i : Nat) (u : UserSt)
    (hu : db.users[i]? = some u)
    (hinv : u.current_streak ≤ u.longest_streak) :
    ∃ u', (update_streak db uid s p today now).users[i]? = some u' ∧
      u.longest_streak ≤ u'.longest_streak ∧
      u'.current_streak ≤ u'.longest_streak := by
  rcases update_streak_users_getElem db uid s p today now i with h | ⟨x, hx1, hx2⟩
  · exact ⟨u, by rw [h, hu], le_refl _, hinv⟩
  · have hxu : x = u := Option.some.inj (hx1.symm.trans hu)
    subst hxu
    exact ⟨_, hx2,
      update_user_streaks_longest_mono x db.challenges db.user_challenges today now,
      update_user_streaks_inv x db.challenges db.user_challenges today now hinv⟩

theorem processEvents_users_invariant (events : List Event) (db : DB)
    (hinv : ∀ u ∈ db.users, u.current_streak ≤ u.longest_streak) :
    (∀ u ∈ (processEvents db events).users,
      u.current_streak ≤ u.longest_streak) ∧
    (processEvents db events).users.length = db.users.length ∧
    ∀ (i : Nat) (u : UserSt), db.users[i]? = some u →
      ∃ u' : UserSt, (processEvents db events).users[i]? = some u' ∧
        u.longest_streak ≤ u'.longest_streak := by
  induction events generalizing db with
  | nil => exact ⟨hinv, rfl, fun i u hu => ⟨u, hu, le_refl _⟩⟩
  | cons e es ih =>
    have hinv' : ∀ u ∈ (update_streak db e.user_id e.reading_seconds
        e.page_count e.today e.now).users,
        u.current_streak ≤ u.longest_streak := by
      intro u' hu'
      rcases List.getElem?_of_mem hu' with ⟨i, hi⟩
      rcases update_streak_users_getElem db e.user_id e.reading_seconds
        e.page_count e.today e.now i with h | ⟨x, hx1, hx2⟩
      · rw [h] at hi
        exact hinv u' (List.mem_iff_getElem?.mpr ⟨i, hi⟩)
      · have hx : x ∈ db.users := List.mem_iff_getElem?.mpr ⟨i, hx1⟩
        have hu'x : u' = (update_user_streaks x db.challenges
            db.user_challenges e.today e.now).1 :=
          Option.some.inj (hi.symm.trans hx2)
        rw [hu'x]
        exact update_user_streaks_inv x db.challenges db.user_challenges
          e.today e.now (hinv x hx)
    obtain ⟨ha, hb, hc⟩ := ih _ hinv'
    refine ⟨ha, hb.trans (update_streak_users_length db e.user_id
      e.reading_seconds e.page_count e.today e.now), ?_⟩
    intro i u hu
    obtain ⟨u1, hu1, hle1, _⟩ := update_streak_users_step db e.user_id
      e.reading_seconds e.page_count e.today e.now i u hu
      (hinv u (List.mem_iff_getElem?.mpr ⟨i, hu⟩))
    obtain ⟨u', hu', hle2⟩ := hc i u1 hu1
    exact ⟨u', hu', le_trans hle1 hle2⟩

/-- C5: starting from a state where every user satisfies
`longest_streak >= current_streak`, processing any sequence of reading
events preserves the invariant, and the `longest_streak` of each user never
decreases (the initial and final user lists are pointwise related by
`longest_streak <=`). -/
theorem C5_longest_streak_invariant (events : List Event) (db : DB)
    (hinv : db.users.all
      (fun u => decide (u.current_streak ≤ u.longest_streak)) = true) :
    (processEvents db events).users.all
      (fun u => decide (u.current_streak ≤ u.longest_streak)) = true ∧
    List.Forall₂ (fun u u' => u.longest_streak ≤ u'.longest_streak)
      db.users (processEvents db events).users := by
  have hinv' : ∀ u ∈ db.users, u.current_streak ≤ u.longest_streak := by
    intro u hu
    simpa using (List.all_eq_true.mp hinv) u hu
  obtain ⟨ha, hb, hc⟩ := processEvents_users_invariant events db hinv'
  constructor
  · rw [List.all_eq_true]
    intro u hu
    simpa using ha u hu
  · rw [List.forall₂_iff_get]
    refine ⟨hb.symm, ?_⟩
    intro i h1 h2
    obtain ⟨u', hu', hle⟩ := hc i (db.users.get ⟨i, h1⟩)
      (by simp [List.getElem?_eq_getElem h1])
    have hg : (processEvents db events).users[i]?
        = some ((processEvents db events).users.get ⟨i, h2⟩) := by
      simp [List.getElem?_eq_getElem h2]
    have hgu : (processEvents db events).users.get ⟨i, h2⟩ = u' :=
      Option.some.inj (hg.symm.trans hu')
    rw [hgu]
    exact hle

/-- Witness for C5 at a concrete input: one event on day 5 after a
2-day streak preserves the invariant and does not decrease
`longest_streak`. -/
theorem C5_longest_streak_invariant_witness :
    (processEvents
      { users := [{ id := 1, current_streak := 2, longest_streak := 2,
                    last_reading_date := some { day := 4, tick := 0 },
                    streak_updated_at := none }],
        daily_readings := [], challenges := [], user_challenges := [] }
      [{ user_id := 1, reading_seconds := 60, page_count := 5,
         today := 5, now := { day := 5, tick := 0 } }]).users.all
      (fun u => decide (u.current_streak ≤ u.longest_streak)) = true ∧
    List.Forall₂ (fun (u u' : UserSt) => u.longest_streak ≤ u'.longest_streak)
      ([{ id := 1, current_streak := 2, longest_streak := 2,
          last_reading_date := some { day := 4, tick := 0 },
          streak_updated_at := none }] : List UserSt)
      (processEvents
        { users := [{ id := 1, current_streak := 2, longest_streak := 2,
                      last_reading_date := some { day := 4, tick := 0 },
                      streak_updated_at := none }],
          daily_readings := [], challenges := [], user_challenges := [] }
        [{ user_id := 1, reading_seconds := 60, page_count := 5,
           today := 5, now := { day := 5, tick := 0 } }]).users :=
  C5_longest_streak_invariant
    [{ user_id := 1, reading_seconds := 60, page_count := 5,
       today := 5, now := { day := 5, tick := 0 } }]
    { users := [{ id := 1, current_streak := 2, longest_streak := 2,
                  last_reading_date := some { day := 4, tick := 0 },
                  streak_updated_at := none }],
      daily_readings := [], challenges := [], user_challenges := [] }
    (by decide)

/-! ### C3: consistency-window evaluation -/

theorem window_dates_nodup (uid : Nat) (readings : List DailyReading)
    (target today : Int) (hpair : LedgerUnique readings) :
    ((readings.filter (fun r =>
      r.user_id == uid &&
      decide (today - (target - 1) ≤ r.reading_date) &&
      decide (r.reading_date ≤ today) &&
      decide (0 < r.page_count))).map DailyReading.reading_date).Nodup := by
  rw [List.Nodup, List.pairwise_map]
  have hq : (readings.filter (fun r =>
      r.user_id == uid &&
      decide (today - (target - 1) ≤ r.reading_date) &&
      decide (r.reading_date ≤ today) &&
      decide (0 < r.page_count))).Pairwise
      (fun r1 r2 =>
        ¬(r1.user_id = r2.user_id ∧ r1.reading_date = r2.reading_date)) :=
    List.Pairwise.filter _ hpair
  refine List.Pairwise.imp_of_mem ?_ hq
  intro a b ha hb hR hdate
  have ha' := (List.mem_filter.mp ha).2
  have hb' := (List.mem_filter.mp hb).2
  simp only [Bool.and_eq_true, beq_iff_eq, decide_eq_true_eq] at ha' hb'
  exact hR ⟨ha'.1.1.1.trans hb'.1.1.1.symm, hdate⟩

theorem window_dates_mem_Icc (uid : Nat) (readings : List DailyReading)
    (target today : Int) :
    ∀ d ∈ (readings.filter (fun r =>
      r.user_id == uid &&
      decide (today - (target - 1) ≤ r.reading_date) &&
      decide (r.reading_date ≤ today) &&
      decide (0 < r.page_count))).map DailyReading.reading_date,
      d ∈ Finset.Icc (today - (target - 1)) today := by
  intro d hd
  rcases List.mem_map.mp hd with ⟨r, hr, rfl⟩
  have hp := (List.mem_filter.mp hr).2
  simp only [Bool.and_eq_true, beq_iff_eq, decide_eq_true_eq] at hp
  exact Finset.mem_Icc.mpr ⟨hp.1.1.2, hp.1.2⟩

theorem windowQualifyingCount_le (uid : Nat) (readings : List DailyReading)
    (target today : Int) (hpair : LedgerUnique readings) (htar : 0 < target) :
    windowQualifyingCount uid readings target today ≤ target := by
  have hnodup := window_dates_nodup uid readings target today hpair
  have hsub := window_dates_mem_Icc uid readings target today
  have hlen : ((readings.filter (fun r =>
      r.user_id == uid &&
      decide (today - (target - 1) ≤ r.reading_date) &&
      decide (r.reading_date ≤ today) &&
      decide (0 < r.page_count))).map DailyReading.reading_date).length
      ≤ (Finset.Icc (today - (target - 1)) today).card := by
    rw [← List.toFinset_card_of_nodup hnodup]
    apply Finset.card_le_card
    intro d hd
    exact hsub d (List.mem_toFinset.mp hd)
  rw [List.length_map, Int.card_Icc] at hlen
  unfold windowQualifyingCount
  omega

theorem windowQualifyingCount_of_covered (uid : Nat)
    (readings : List DailyReading) (target today : Int)
    (hpair : LedgerUnique readings) (htar : 0 < target)
    (hcov : coveredWindow uid readings target today = true) :
    windowQualifyingCount uid readings target today = target := by
  have hle := windowQualifyingCount_le uid readings target today hpair htar
  have hsub2 : Finset.Icc (today - (target - 1)) today ⊆
      ((readings.filter (fun r =>
        r.user_id == uid &&
        decide (today - (target - 1) ≤ r.reading_date) &&
        decide (r.reading_date ≤ today) &&
        decide (0 < r.page_count))).map DailyReading.reading_date).toFinset := by
    intro d hd
    rw [Finset.mem_Icc] at hd
    have hk : (today - d).toNat ∈ List.range target.toNat := by
      rw [List.mem_range]
      omega
    rcases List.any_eq_true.mp ((List.all_eq_true.mp hcov) _ hk) with ⟨r, hr, hpr⟩
    simp only [Bool.and_eq_true, beq_iff_eq, decide_eq_true_eq] at hpr
    obtain ⟨⟨hru, hrd⟩, hrp⟩ := hpr
    have hrd' : r.reading_date = d := by
      rw [hrd]
      omega
    rw [List.mem_toFinset]
    apply List.mem_map.mpr
    refine ⟨r, ?_, hrd'⟩
    apply List.mem_filter.mpr
    refine ⟨hr, ?_⟩
    simp only [Bool.and_eq_true, beq_iff_eq, decide_eq_true_eq]
    exact ⟨⟨⟨hru, by rw [hrd']; omega⟩, by rw [hrd']; omega⟩, hrp⟩
  have hnodup := window_dates_nodup uid readings target today hpair
  have h1 := Finset.card_le_card hsub2
  rw [Int.card_Icc, List.toFinset_card_of_nodup hnodup, List.length_map] at h1
  unfold windowQualifyingCount at hle ⊢
  omega

theorem windowQualifyingCount_of_misses (uid : Nat)
    (readings : List DailyReading) (target today : Int)
    (hpair : LedgerUnique readings) (htar : 0 < target)
    (hmiss : missesWindowDay uid readings target today = true) :
    windowQualifyingCount uid readings target today < target := by
  rcases List.any_eq_true.mp hmiss with ⟨k, hk, hall⟩
  rw [List.mem_range] at hk
  have hno : ∀ r ∈ readings,
      ¬(r.user_id = uid ∧ r.reading_date = today - k ∧ 0 < r.page_count) := by
    intro r hr hcon
    have hfr := (List.all_eq_true.mp hall) r hr
    simp only [Bool.not_eq_true', Bool.and_eq_true, beq_iff_eq,
      decide_eq_true_eq] at hfr
    rw [Bool.and_eq_false_iff] at hfr
    rcases hfr with hfr | hfr
    · rw [Bool.and_eq_false_iff] at hfr
      rcases hfr with hfr | hfr
      · exact absurd hcon.1 (by simpa using hfr)
      · exact absurd hcon.2.1 (by simpa using hfr)
    · exact absurd hcon.2.2 (by simpa using hfr)
  have hsub : ((readings.filter (fun r =>
      r.user_id == uid &&
      decide (today - (target - 1) ≤ r.reading_date) &&
      decide (r.reading_date ≤ today) &&
      decide (0 < r.page_count))).map DailyReading.reading_date).toFinset ⊆
      (Finset.Icc (today - (target - 1)) today).erase (today - k) := by
    intro d hd
    rw [List.mem_toFinset] at hd
    rcases List.mem_map.mp hd with ⟨r, hr, rfl⟩
    have hrm := List.mem_filter.mp hr
    have hp := hrm.2
    simp only [Bool.and_eq_true, beq_iff_eq, decide_eq_true_eq] at hp
    rw [Finset.mem_erase]
    constructor
    · intro hEq
      exact hno r hrm.1 ⟨hp.1.1.1, hEq, hp.2⟩
    · exact Finset.mem_Icc.mpr ⟨hp.1.1.2, hp.1.2⟩
  have hcard : ((Finset.Icc (today - (target - 1)) today).erase (today - k)).card
      = target.toNat - 1 := by
    rw [Finset.card_erase_of_mem]
    · rw [Int.card_Icc]
      omega
    · rw [Finset.mem_Icc]
      omega
  have hnodup := window_dates_nodup uid readings target today hpair
  have h1 := Finset.card_le_card hsub
  rw [hcard, List.toFinset_card_of_nodup hnodup, List.length_map] at h1
  unfold windowQualifyingCount
  omega

theorem ucc_progress (user : UserSt) (readings : List DailyReading)
    (challenge : Challenge) (uc : UserChallenge) (today : Int)
    (now : Timestamp) :
    (update_consistency_challenge user readings challenge uc today now).progress
      = windowQualifyingCount user.id readings challenge.target_value today := by
  simp only [update_consistency_challenge, windowQualifyingCount]
  split <;> rfl

theorem ucc_is_completed (user : UserSt) (readings : List DailyReading)
    (challenge : Challenge) (uc : UserChallenge) (today : Int)
    (now : Timestamp) (h_inc : uc.is_completed = false) :
    (update_consistency_challenge user readings challenge uc today now).is_completed
      = decide (challenge.target_value
          ≤ windowQualifyingCount user.id readings challenge.target_value today) := by
  by_cases h : challenge.target_value
      ≤ windowQualifyingCount user.id readings challenge.target_value today
  · rw [decide_eq_true h]
    unfold windowQualifyingCount at h
    simp only [update_consistency_challenge]
    rw [if_pos h]
  · rw [decide_eq_false h]
    unfold windowQualifyingCount at h
    simp only [update_consistency_challenge]
    rw [if_neg h]
    exact h_inc

theorem ucc_completed_date (user : UserSt) (readings : List DailyReading)
    (challenge : Challenge) (uc : UserChallenge) (today : Int)
    (now : Timestamp)
    (h : challenge.target_value
      ≤ windowQualifyingCount user.id readings challenge.target_value today) :
    (update_consistency_challenge user readings challenge uc today now).completed_date
      = some now := by
  unfold windowQualifyingCount at h
  simp only [update_consistency_challenge]
  rw [if_pos h]

/-- C3: for a CONSISTENCY enrollment that is not yet completed with a
positive `target_value` N, evaluated over a day-unique ledger:
`progress` is set to the number of the ledger rows of the user with
`page_count > 0` in the inclusive window `[today - (N-1), today]`;
`is_completed` becomes true exactly when that count reaches N, stamping
`completed_date`; in particular, qualifying rows on every window day
give `progress = N` and completion, while a window day without a
qualifying row (e.g. its row has `page_count = 0`) gives
`progress < N` and no completion. -/
theorem C3_consistency_window (user : UserSt) (readings : List DailyReading)
    (challenge : Challenge) (uc : UserChallenge) (today : Int)
    (now : Timestamp) (hpair : LedgerUnique readings)
    (h_inc : uc.is_completed = false) (htar : 0 < challenge.target_value) :
    (update_consistency_challenge user readings challenge uc today now).progress
      = windowQualifyingCount user.id readings challenge.target_value today ∧
    ((update_consistency_challenge user readings challenge uc today now).is_completed
      = decide (challenge.target_value
          ≤ windowQualifyingCount user.id readings challenge.target_value today)) ∧
    (challenge.target_value
        ≤ windowQualifyingCount user.id readings challenge.target_value today →
      (update_consistency_challenge user readings challenge uc today now).completed_date
        = some now) ∧
    (coveredWindow user.id readings challenge.target_value today = true →
      (update_consistency_challenge user readings challenge uc today now).progress
        = challenge.target_value ∧
      (update_consistency_challenge user readings challenge uc today now).is_completed
        = true) ∧
    (missesWindowDay user.id readings challenge.target_value today = true →
      (update_consistency_challenge user readings challenge uc today now).progress
        < challenge.target_value ∧
      (update_consistency_challenge user readings challenge uc today now).is_completed
        = false) := by
  have hp := ucc_progress user readings challenge uc today now
  have hic := ucc_is_completed user readings challenge uc today now h_inc
  refine ⟨hp, hic, ucc_completed_date user readings challenge uc today now, ?_, ?_⟩
  · intro hcov
    have hc := windowQualifyingCount_of_covered user.id readings
      challenge.target_value today hpair htar hcov
    refine ⟨hp.trans hc, ?_⟩
    rw [hic, hc]
    simp
  · intro hmiss
    have hm := windowQualifyingCount_of_misses user.id readings
      challenge.target_value today hpair htar hmiss
    refine ⟨?_, ?_⟩
    · rw [hp]
      exact hm
    · rw [hic]
      exact decide_eq_false (not_le.mpr hm)

/-- Witness for C3 at a concrete input: a 14-day CONSISTENCY challenge
with qualifying ledger rows on all 14 days ending day 13 reaches
`progress = 14` and completes. -/
theorem C3_consistency_window_witness :
    (update_consistency_challenge
      { id := 1, current_streak := 14, longest_streak := 14,
        last_reading_date := some { day := 13, tick := 0 },
        streak_updated_at := none }
      [{ user_id := 1, reading_date := 0, reading_seconds := 60, page_count := 1 },
         { user_id := 1, reading_date := 1, reading_seconds := 60, page_count := 1 },
         { user_id := 1, reading_date := 2, reading_seconds := 60, page_count := 1 },
         { user_id := 1, reading_date := 3, reading_seconds := 60, page_count := 1 },
         { user_id := 1, reading_date := 4, reading_seconds := 60, page_count := 1 },
         { user_id := 1, reading_date := 5, reading_seconds := 60, page_count := 1 },
         { user_id := 1, reading_date := 6, reading_seconds := 60, page_count := 1 },
         { user_id := 1, reading_date := 7, reading_seconds := 60, page_count := 1 },
         { user_id := 1, reading_date := 8, reading_seconds := 60, page_count := 1 },
         { user_id := 1, reading_date := 9, reading_seconds := 60, page_count := 1 },
         { user_id := 1, reading_date := 10, reading_seconds := 60, page_count := 1 },
         { user_id := 1, reading_date := 11, reading_seconds := 60, page_count := 1 },
         { user_id := 1, reading_date := 12, reading_seconds := 60, page_count := 1 },
         { user_id := 1, reading_date := 13, reading_seconds := 60, page_count := 1 }]
      { id := 7, type := ChallengeType.CONSISTENCY, target_value := 14,
        is_active := true }
      { user_id := 1, challenge_id := 7, progress := 0,
        is_completed := false, completed_date := none }
      13 { day := 13, tick := 0 }).progress = 14 ∧
    (update_consistency_challenge
      { id := 1, current_streak := 14, longest_streak := 14,
        last_reading_date := some { day := 13, tick := 0 },
        streak_updated_at := none }
      [{ user_id := 1, reading_date := 0, reading_seconds := 60, page_count := 1 },
         { user_id := 1, reading_date := 1, reading_seconds := 60, page_count := 1 },
         { user_id := 1, reading_date := 2, reading_seconds := 60, page_count := 1 },
         { user_id := 1, reading_date := 3, reading_seconds := 60, page_count := 1 },
         { user_id := 1, reading_date := 4, reading_seconds := 60, page_count := 1 },
         { user_id := 1, reading_date := 5, reading_seconds := 60, page_count := 1 },
         { user_id := 1, reading_date := 6, reading_seconds := 60, page_count := 1 },
         { user_id := 1, reading_date := 7, reading_seconds := 60, page_count := 1 },
         { user_id := 1, reading_date := 8, reading_seconds := 60, page_count := 1 },
         { user_id := 1, reading_date := 9, reading_seconds := 60, page_count := 1 },
         { user_id := 1, reading_date := 10, reading_seconds := 60, page_count := 1 },
         { user_id := 1, reading_date := 11, reading_seconds := 60, page_count := 1 },
         { user_id := 1, reading_date := 12, reading_seconds := 60, page_count := 1 },
         { user_id := 1, reading_date := 13, reading_seconds := 60, page_count := 1 }]
      { id := 7, type := ChallengeType.CONSISTENCY, target_value := 14,
        is_active := true }
      { user_id := 1, challenge_id := 7, progress := 0,
        is_completed := false, completed_date := none }
      13 { day := 13, tick := 0 }).is_completed = true :=
  (C3_consistency_window
    { id := 1, current_streak := 14, longest_streak := 14,
      last_reading_date := some { day := 13, tick := 0 },
      streak_updated_at := none }
    [{ user_id := 1, reading_date := 0, reading_seconds := 60, page_count := 1 },
         { user_id := 1, reading_date := 1, reading_seconds := 60, page_count := 1 },
         { user_id := 1, reading_date := 2, reading_seconds := 60, page_count := 1 },
         { user_id := 1, reading_date := 3, reading_seconds := 60, page_count := 1 },
         { user_id := 1, reading_date := 4, reading_seconds := 60, page_count := 1 },
         { user_id := 1, reading_date := 5, reading_seconds := 60, page_count := 1 },
         { user_id := 1, reading_date := 6, reading_seconds := 60, page_count := 1 },
         { user_id := 1, reading_date := 7, reading_seconds := 60, page_count := 1 },
         { user_id := 1, reading_date := 8, reading_seconds := 60, page_count := 1 },
         { user_id := 1, reading_date := 9, reading_seconds := 60, page_count := 1 },
         { user_id := 1, reading_date := 10, reading_seconds := 60, page_count := 1 },
         { user_id := 1, reading_date := 11, reading_seconds := 60, page_count := 1 },
         { user_id := 1, reading_date := 12, reading_seconds := 60, page_count := 1 },
         { user_id := 1, reading_date := 13, reading_seconds := 60, page_count := 1 }]
    { id := 7, type := ChallengeType.CONSISTENCY, target_value := 14,
      is_active := true }
    { user_id := 1, challenge_id := 7, progress := 0,
      is_completed := false, completed_date := none }
    13 { day := 13, tick := 0 }
    (by unfold LedgerUnique; decide) rfl (by decide)).2.2.2.1 (by decide)
